import Mathlib

/-!
Shallow embedding of the client-side authentication/session slice of the
`frontendbakery` web client:

* `authUtils` — the Token/User Store (`src/utils/auth.ts`): key-value
  accessors over browser `localStorage`, modelled as a `Store` record with
  a `token` slot and a `user` slot.
* `apiService` — the API Gateway Client (`src/services/api.ts`): the axios
  request interceptor (token injection), the response interceptor (401
  handling) and `setAuthToken` (mutable default `Authorization` header).
* `AuthProvider` — the Session Controller (the auth hook): `initAuth`
  startup restoration, `login`, `register`, and the derived values
  `isAuthenticated` / `hasRole`.
* `ProtectedRoute` — the Route Guard (`src/components/ProtectedRoute.tsx`).

The remote backend is opaque: each network call is parameterised by an
oracle giving that call's outcome (`Except ApiError α`).  JavaScript
exceptions are modelled with `Except`; `JSON.parse` on the persisted user
record is modelled by classifying the raw stored string into values that
parse to a user-shaped object (`StoredUser.wellFormed`) and values on
which `JSON.parse` throws (`StoredUser.corrupt`).
-/

/-- The backend's current-user profile payload (`UserProfile` in
`src/types/index.ts`): `{ id, email, username, full_name, role, is_active }`.
Roles are kept as raw strings because the persisted record is read back
without schema validation. -/
structure UserProfile where
  id : Nat
  email : String
  username : String
  full_name : String
  role : String
  is_active : Bool
deriving Repr, DecidableEq

/-- A runtime user record (`User` in `src/types/index.ts`).  The TypeScript
declaration makes `created_at` a required `string`, but TypeScript types do
not exist at runtime: an object cast `as User` carries only the properties
it was built with.  The embedding therefore tracks presence of `phone`,
`address` and `created_at` with `Option`. -/
structure User where
  id : Nat
  email : String
  username : String
  full_name : String
  phone : Option String
  address : Option String
  role : String
  is_active : Bool
  created_at : Option String
deriving Repr, DecidableEq

/-- The credentials-exchange response (`AuthResponse` in
`src/types/index.ts`): `{ access_token, token_type }`. -/
structure AuthResponse where
  access_token : String
  token_type : String
deriving Repr, DecidableEq

/-- An axios rejection as observed by the interceptor and the callers:
`error.response?.status` (`none` for a transport failure with no response)
and `error.response?.data?.detail`. -/
structure ApiError where
  status : Option Nat
  detail : Option String
deriving Repr, DecidableEq

/-- A raw string persisted under the `user` key, classified by what
`JSON.parse` does with it: `wellFormed u` stands for the strings that parse
to the user-shaped object `u` (in particular everything written by
`authUtils.setUser`, which stores `JSON.stringify(user)`), `corrupt s` for
a non-empty string on which `JSON.parse` throws. -/
inductive StoredUser where
  | wellFormed (u : User)
  | corrupt (s : String)
deriving Repr, DecidableEq

/-- The localStorage slice the auth code touches: the `'token'` entry and
the `'user'` entry (`TOKEN_KEY` / `USER_KEY` in `src/utils/auth.ts`). -/
structure Store where
  token : Option String
  user : Option StoredUser
deriving Repr, DecidableEq

/-- The message of the exception `JSON.parse` raises on a corrupt record. -/
def jsonParseErrorMsg : String := "SyntaxError: Unexpected token in JSON"

namespace authUtils

/-- `authUtils.setToken`: `localStorage.setItem(TOKEN_KEY, token)`. -/
def setToken (token : String) (s : Store) : Store :=
  { s with token := some token }

/-- `authUtils.getToken`: `localStorage.getItem(TOKEN_KEY)`. -/
def getToken (s : Store) : Option String :=
  s.token

/-- `authUtils.removeToken`: `localStorage.removeItem(TOKEN_KEY)`. -/
def removeToken (s : Store) : Store :=
  { s with token := none }

/-- `authUtils.setUser`: `localStorage.setItem(USER_KEY, JSON.stringify(user))`.
`JSON.stringify` of a user object always reparses, so the slot receives a
well-formed value. -/
def setUser (u : User) (s : Store) : Store :=
  { s with user := some (StoredUser.wellFormed u) }

/-- `authUtils.getUser`:
`const userStr = localStorage.getItem(USER_KEY); return userStr ? JSON.parse(userStr) : null;`.
There is no `try`/`catch`: when the stored string does not parse, the
`JSON.parse` exception propagates to the caller, hence the `Except`. -/
def getUser (s : Store) : Except String (Option User) :=
  match s.user with
  | none => Except.ok none
  | some (StoredUser.wellFormed u) => Except.ok (some u)
  | some (StoredUser.corrupt _) => Except.error jsonParseErrorMsg

/-- `authUtils.removeUser`: `localStorage.removeItem(USER_KEY)`. -/
def removeUser (s : Store) : Store :=
  { s with user := none }

/-- `authUtils.logout`: `this.removeToken(); this.removeUser();`. -/
def logout (s : Store) : Store :=
  removeUser (removeToken s)

end authUtils

/-- Decision taken by the Route Guard for one navigation attempt. -/
inductive GuardDecision where
  | renderLoading
  | redirectLogin (intendedDestination : String)
  | redirect (path : String)
  | renderChildren
deriving Repr, DecidableEq

/-- `user?.role` — optional chaining on the current user. -/
def roleOpt (user : Option User) : Option String :=
  user.map User.role

/-- `ProtectedRoute` (`src/components/ProtectedRoute.tsx`), a pure function
of the auth-context fields it destructures (`user`, `loading`,
`isAuthenticated`), the optional `requiredRole` prop and the current
location:
1. `if (loading)` render a spinner;
2. `if (!isAuthenticated)` navigate to `/login` with `state.from = location`;
3. `if (requiredRole && user?.role !== requiredRole)` switch on `user?.role`
   — `'admin' → /admin`, `'baker' → /baker`, `'delivery_person' → /delivery`,
   default `/`;
4. otherwise render the children. -/
def ProtectedRoute (user : Option User) (loading : Bool)
    (isAuthenticated : Bool) (requiredRole : Option String)
    (location : String) : GuardDecision :=
  if loading then
    GuardDecision.renderLoading
  else if !isAuthenticated then
    GuardDecision.redirectLogin location
  else
    match requiredRole with
    | none => GuardDecision.renderChildren
    | some r =>
      if roleOpt user == some r then
        GuardDecision.renderChildren
      else
        match roleOpt user with
        | some s =>
          if s == "admin" then GuardDecision.redirect "/admin"
          else if s == "baker" then GuardDecision.redirect "/baker"
          else if s == "delivery_person" then GuardDecision.redirect "/delivery"
          else GuardDecision.redirect "/"
        | none => GuardDecision.redirect "/"

/-- The spec's fixed role-home mapping (written from the spec's words, for
the refinement theorem): admin→admin home, baker→baker home,
delivery_person→delivery home, anything else→default home. -/
def roleHomeSpec (role : String) : String :=
  if role == "admin" then "/admin"
  else if role == "baker" then "/baker"
  else if role == "delivery_person" then "/delivery"
  else "/"

/-- The Route Guard algorithm as the spec states it (written from the
spec's words, for the refinement theorem): restoring → loading indicator;
unauthenticated → login capturing the destination; declared role not
exactly matched → the user's own role home; otherwise render. -/
def guardSpec (user : Option User) (loading : Bool)
    (requiredRole : Option String) (location : String) : GuardDecision :=
  if loading then
    GuardDecision.renderLoading
  else
    match user with
    | none => GuardDecision.redirectLogin location
    | some u =>
      match requiredRole with
      | none => GuardDecision.renderChildren
      | some r =>
        if u.role == r then GuardDecision.renderChildren
        else GuardDecision.redirect (roleHomeSpec u.role)

namespace apiService

/-- `apiService.setAuthToken` (`src/services/api.ts`): updates the axios
instance's default `Authorization` header —
`defaults.headers.common['Authorization'] = `Bearer ${token}`` when given a
token, `delete defaults.headers.common['Authorization']` when given null.
The first argument is the token, the second the previous default header. -/
def setAuthToken (token : Option String) (_defaultAuth : Option String) :
    Option String :=
  match token with
  | some t => some ("Bearer " ++ t)
  | none => none

/-- An outgoing request's `Authorization` header as the interceptor sees
it.  axios merges the instance's default headers into `config.headers`
before the request interceptors run, so a default header installed by
`setAuthToken` is already present here. -/
structure RequestConfig where
  authorization : Option String
deriving Repr, DecidableEq

/-- The request interceptor (`src/services/api.ts`):
`const token = localStorage.getItem('token'); if (token) config.headers.Authorization = `Bearer ${token}`; return config;`.
When no token is stored the config is returned unchanged — an
`Authorization` header already in the config (from the defaults) stays. -/
def requestInterceptor (s : Store) (config : RequestConfig) : RequestConfig :=
  match s.token with
  | some t => { config with authorization := some ("Bearer " ++ t) }
  | none => config

/-- What one pass through the response interceptor leaves behind: the
(possibly cleared) store, whether `window.location.href = '/login'` was
executed, and the settled result handed on to the caller. -/
structure InterceptResult (α : Type) where
  store : Store
  redirectedToLogin : Bool
  result : Except ApiError α
deriving Repr

/-- The response interceptor (`src/services/api.ts`): fulfilled responses
pass through; on a rejection with `error.response?.status === 401` it runs
`localStorage.removeItem('token'); localStorage.removeItem('user');
window.location.href = '/login';` and then — like every other rejection —
`return Promise.reject(error)`. -/
def responseInterceptor (s : Store) (raw : Except ApiError α) :
    InterceptResult α :=
  match raw with
  | Except.ok a => { store := s, redirectedToLogin := false, result := Except.ok a }
  | Except.error e =>
    if e.status == some 401 then
      { store := { token := none, user := none }
        redirectedToLogin := true
        result := Except.error e }
    else
      { store := s, redirectedToLogin := false, result := Except.error e }

end apiService

/-- The `AuthProvider`'s React state: `user` (`useState<User | null>(null)`)
and `loading` (`useState(true)`). -/
structure SessionState where
  user : Option User
  loading : Bool
deriving Repr, DecidableEq

/-- Everything client-side the auth slice can read or write: the
localStorage slice, the axios instance's default `Authorization` header,
the provider's React state, how many requests have been dispatched, and
whether a 401 interception has forced navigation to `/login`. -/
structure ClientState where
  store : Store
  defaultAuth : Option String
  session : SessionState
  apiCalls : Nat
  redirectedToLogin : Bool
deriving Repr, DecidableEq

/-- One request through the axios instance: the raw backend outcome is fed
through the response interceptor, which may clear the store and force the
login redirect; the settled result is returned to the awaiting caller. -/
def apiCall (cs : ClientState) (raw : Except ApiError α) :
    ClientState × Except ApiError α :=
  let r := apiService.responseInterceptor cs.store raw
  ({ cs with
      store := r.store
      apiCalls := cs.apiCalls + 1
      redirectedToLogin := cs.redirectedToLogin || r.redirectedToLogin },
    r.result)

/-- The runtime value obtained from the current-user endpoint and cast
`as User` by `AuthProvider.login`: the cast is type-level only, so the
object carries exactly the profile's six properties — no `phone`,
`address` or `created_at`. -/
def userOfProfile (p : UserProfile) : User :=
  { id := p.id
    email := p.email
    username := p.username
    full_name := p.full_name
    phone := none
    address := none
    role := p.role
    is_active := p.is_active
    created_at := none }

namespace AuthProvider

/-- `isAuthenticated = !!user` (the auth hook). -/
def isAuthenticated (user : Option User) : Bool :=
  user.isSome

/-- `hasRole = (role) => user?.role === role` (the auth hook): comparing
`undefined` to a string with `===` is `false`, so an absent user yields
`false` for every role. -/
def hasRole (user : Option User) (role : String) : Bool :=
  match user with
  | some u => u.role == role
  | none => false

/-- The backend's answers to the two calls a single `login` invocation can
make: the credentials exchange (`POST /api/auth/login-form`) and the
profile fetch (`GET /api/auth/me`). -/
structure LoginOracle where
  exchange : Except ApiError AuthResponse
  profile : Except ApiError UserProfile
deriving Repr

/-- `AuthProvider.login` (the auth hook): `setLoading(true)`; await the
credentials exchange; on success `authUtils.setToken` then
`apiService.setAuthToken`, await the profile fetch, `authUtils.setUser`
and `setUser` with the profile cast `as User`; any rejection is re-thrown
after the error toast; `finally { setLoading(false) }`. -/
def login (cs : ClientState) (o : LoginOracle) :
    ClientState × Except ApiError Unit :=
  let cs1 := { cs with session := { cs.session with loading := true } }
  let step1 := apiCall cs1 o.exchange
  match step1.2 with
  | Except.error e =>
    ({ step1.1 with session := { step1.1.session with loading := false } },
      Except.error e)
  | Except.ok auth =>
    let cs2 := { step1.1 with
        store := authUtils.setToken auth.access_token step1.1.store
        defaultAuth := apiService.setAuthToken (some auth.access_token)
          step1.1.defaultAuth }
    let step2 := apiCall cs2 o.profile
    match step2.2 with
    | Except.error e =>
      ({ step2.1 with session := { step2.1.session with loading := false } },
        Except.error e)
    | Except.ok p =>
      ({ step2.1 with
          store := authUtils.setUser (userOfProfile p) step2.1.store
          session := { user := some (userOfProfile p), loading := false } },
        Except.ok ())

/-- `AuthProvider.register` (the auth hook): `setLoading(true)`; await the
account-creation call; success only shows a toast (no session mutation, no
auto-login); any rejection is re-thrown after the error toast;
`finally { setLoading(false) }`. -/
def register (cs : ClientState) (raw : Except ApiError User) :
    ClientState × Except ApiError Unit :=
  let cs1 := { cs with session := { cs.session with loading := true } }
  let step := apiCall cs1 raw
  ({ step.1 with session := { step.1.session with loading := false } },
    step.2.map fun _ => ())

/-- `initAuth` (the auth hook's mount effect): read `authUtils.getToken()`
and `authUtils.getUser()` (the latter outside any `try`, so a `JSON.parse`
exception escapes `initAuth` and `setLoading(false)` never runs); when both
are present, await `apiService.getCurrentUser()` — success keeps the cached
user as current user, any rejection runs `authUtils.logout()` and
`setUser(null)`; in either case, and when something is missing,
`setLoading(false)`. -/
def initAuth (cs : ClientState) (whoAmI : Except ApiError UserProfile) :
    Except String ClientState :=
  match authUtils.getUser cs.store with
  | Except.error e => Except.error e
  | Except.ok storedUser =>
    match authUtils.getToken cs.store, storedUser with
    | some _, some u =>
      let step := apiCall cs whoAmI
      match step.2 with
      | Except.ok _ =>
        Except.ok { step.1 with session := { user := some u, loading := false } }
      | Except.error _ =>
        Except.ok { step.1 with
          store := authUtils.logout step.1.store
          session := { user := none, loading := false } }
    | _, _ =>
      Except.ok { cs with session := { cs.session with loading := false } }

end AuthProvider

/-! ### Concrete sample values used by witnesses and counterexamples -/

/-- A concrete user record as `setUser` would persist it. -/
def sampleUser : User :=
  { id := 1, email := "a@b.com", username := "alice", full_name := "Alice A"
    phone := none, address := none, role := "customer", is_active := true
    created_at := some "2024-01-01" }

/-- A concrete profile as the current-user endpoint returns it. -/
def sampleProfile : UserProfile :=
  { id := 1, email := "a@b.com", username := "alice", full_name := "Alice A"
    role := "baker", is_active := true }

/-- The client state at a fresh application start: empty storage, no
default header, the provider's initial React state
(`user = null`, `loading = true`). -/
def freshClient : ClientState :=
  { store := { token := none, user := none }
    defaultAuth := none
    session := { user := none, loading := true }
    apiCalls := 0
    redirectedToLogin := false }

/-- An unauthenticated idle client (startup restoration already finished). -/
def idleClient : ClientState :=
  { store := { token := none, user := none }
    defaultAuth := none
    session := { user := none, loading := false }
    apiCalls := 0
    redirectedToLogin := false }

/-- `some a == some b` unfolds to `a == b` for strings. -/
theorem someBeqSome (a b : String) : (some a == some b) = (a == b) := rfl

/-- C4 — Route Guard decision function: wired with the provider's
`isAuthenticated = !!user`, `ProtectedRoute` computes exactly the spec's
algorithm: restoring → loading indicator, unauthenticated → redirect to
login capturing the destination, declared role not exactly equal to the
user's role → redirect to the fixed role-home mapping (admin→`/admin`,
baker→`/baker`, delivery_person→`/delivery`, anything else→`/`), never to
login or a forbidden page, otherwise render the destination. -/
theorem protectedRoute_matches_guardSpec (user : Option User) (loading : Bool)
    (requiredRole : Option String) (location : String) :
    ProtectedRoute user loading (AuthProvider.isAuthenticated user)
      requiredRole location
      = guardSpec user loading requiredRole location := by
  cases user with
  | none =>
    cases loading <;> cases requiredRole <;>
      simp [ProtectedRoute, guardSpec, AuthProvider.isAuthenticated, roleOpt]
  | some u =>
    cases loading with
    | true =>
      simp [ProtectedRoute, guardSpec, AuthProvider.isAuthenticated]
    | false =>
      cases requiredRole with
      | none =>
        simp [ProtectedRoute, guardSpec, AuthProvider.isAuthenticated]
      | some r =>
        by_cases h : u.role = r
        · simp [ProtectedRoute, guardSpec, AuthProvider.isAuthenticated,
            roleOpt, someBeqSome, h]
        · by_cases ha : u.role = "admin"
          · simp [ProtectedRoute, guardSpec, AuthProvider.isAuthenticated,
              roleOpt, someBeqSome, roleHomeSpec, h, ha]
          · by_cases hb : u.role = "baker"
            · simp [ProtectedRoute, guardSpec, AuthProvider.isAuthenticated,
                roleOpt, someBeqSome, roleHomeSpec, h, ha, hb]
            · by_cases hd : u.role = "delivery_person"
              · simp [ProtectedRoute, guardSpec, AuthProvider.isAuthenticated,
                  roleOpt, someBeqSome, roleHomeSpec, h, ha, hb, hd]
              · simp [ProtectedRoute, guardSpec, AuthProvider.isAuthenticated,
                  roleOpt, someBeqSome, roleHomeSpec, h, ha, hb, hd]

/-- C6 — Session-state invariant: the provider's `isAuthenticated` (the
value the Route Guard reads) is `true` exactly when `currentUser` is
non-null; there is no third possibility. -/
theorem isAuthenticated_iff_currentUser_present (user : Option User) :
    AuthProvider.isAuthenticated user = true ↔ user ≠ none := by
  cases user <;> simp [AuthProvider.isAuthenticated]

/-- C8 — Role exact-match: `hasRole r` is `true` exactly when a current
user exists whose role strictly equals `r`; in particular it is `false`
for every unauthenticated session and for every user with a different
role value. -/
theorem hasRole_iff_exact_match (user : Option User) (role : String) :
    AuthProvider.hasRole user role = true
      ↔ ∃ u, user = some u ∧ u.role = role := by
  cases user with
  | none => simp [AuthProvider.hasRole]
  | some u => simp [AuthProvider.hasRole]

/-- C3 counterexample — the claim says a stored value that fails to
deserialize makes `getUser()` return absent without raising; on the
concrete corrupted record `"not-json"` the code instead propagates the
`JSON.parse` exception (the result is an error, not `ok none`). -/
theorem getUser_corrupt_raises :
    authUtils.getUser { token := none, user := some (StoredUser.corrupt "not-json") }
      = Except.error jsonParseErrorMsg
    ∧ authUtils.getUser { token := none, user := some (StoredUser.corrupt "not-json") }
      ≠ Except.ok none :=
  ⟨rfl, fun h => Except.noConfusion h⟩

/-- C3 amended — `getUser()` returns the deserialized user when parsing
succeeds and absent when nothing is stored, but a deserialization failure
is NOT treated as absent: the `JSON.parse` exception propagates to the
caller, so startup restoration over a corrupted stored user record
rejects with the parse error instead of resolving to `unauthenticated`. -/
theorem getUser_parse_behavior (cs : ClientState)
    (o : Except ApiError UserProfile) :
    (cs.store.user = none → authUtils.getUser cs.store = Except.ok none)
    ∧ (∀ u, cs.store.user = some (StoredUser.wellFormed u) →
        authUtils.getUser cs.store = Except.ok (some u))
    ∧ (∀ s, cs.store.user = some (StoredUser.corrupt s) →
        authUtils.getUser cs.store = Except.error jsonParseErrorMsg
        ∧ AuthProvider.initAuth cs o = Except.error jsonParseErrorMsg) := by
  refine ⟨fun h => ?_, fun u h => ?_, fun s h => ?_⟩
  · simp [authUtils.getUser, h]
  · simp [authUtils.getUser, h]
  · have h1 : authUtils.getUser cs.store = Except.error jsonParseErrorMsg := by
      simp [authUtils.getUser, h]
    exact ⟨h1, by simp [AuthProvider.initAuth, h1]⟩

/-- C3 witness — on a client whose store holds a corrupted user record,
startup restoration rejects with the `JSON.parse` error. -/
theorem getUser_parse_behavior_witness :
    AuthProvider.initAuth
      { store := { token := some "tok", user := some (StoredUser.corrupt "not-json") }
        defaultAuth := none
        session := { user := none, loading := true }
        apiCalls := 0
        redirectedToLogin := false }
      (Except.ok sampleProfile)
      = Except.error jsonParseErrorMsg :=
  ((getUser_parse_behavior _ _).2.2 "not-json" rfl).2

/-- C2 amended — on a response with status 401 the interceptor clears both
the token and the user entry, forces the navigation to `/login`, and does
not retry; but the rejection is then handed back unchanged
(`return Promise.reject(error)`), so the caller still observes the 401 as
a normal rejected call. -/
theorem responseInterceptor_on_401 (st : Store) (e : ApiError)
    (h : e.status = some 401) :
    (apiService.responseInterceptor st (Except.error e)
        : apiService.InterceptResult Unit).store
      = { token := none, user := none }
    ∧ (apiService.responseInterceptor st (Except.error e)
        : apiService.InterceptResult Unit).redirectedToLogin = true
    ∧ (apiService.responseInterceptor st (Except.error e)
        : apiService.InterceptResult Unit).result = Except.error e := by
  refine ⟨?_, ?_, ?_⟩ <;> simp [apiService.responseInterceptor, h]

/-- C2 witness — a concrete 401 rejection against a populated store. -/
theorem responseInterceptor_on_401_witness :
    (apiService.responseInterceptor
        { token := some "tok", user := some (StoredUser.wellFormed sampleUser) }
        (Except.error { status := some 401, detail := none })
        : apiService.InterceptResult Unit).store
      = { token := none, user := none }
    ∧ (apiService.responseInterceptor
        { token := some "tok", user := some (StoredUser.wellFormed sampleUser) }
        (Except.error { status := some 401, detail := none })
        : apiService.InterceptResult Unit).redirectedToLogin = true
    ∧ (apiService.responseInterceptor
        { token := some "tok", user := some (StoredUser.wellFormed sampleUser) }
        (Except.error { status := some 401, detail := none })
        : apiService.InterceptResult Unit).result
      = Except.error { status := some 401, detail := none } :=
  responseInterceptor_on_401 _ _ rfl

/-- C2 counterexample — the claim says the 401 is never propagated as a
normal rejected call to the business-logic caller; on this concrete 401
the interceptor's settled result is exactly the original rejection, which
the awaiting caller receives (e.g. `login`'s `catch` runs its toast on
it). -/
theorem response401_still_rejected_to_caller :
    (apiService.responseInterceptor { token := some "tok", user := none }
        (Except.error { status := some 401, detail := none })
        : apiService.InterceptResult Unit).result
      = Except.error { status := some 401, detail := none } := rfl

/-- C7 amended — when a token is in the store, the request interceptor
overwrites the `Authorization` header with `Bearer <token>`; when no token
is stored the interceptor returns the config unchanged, so the request
carries an `Authorization` header exactly when the merged axios defaults
already held one (e.g. a stale header installed by `setAuthToken` that
`logout` never removes). -/
theorem requestInterceptor_header (st : Store)
    (config : apiService.RequestConfig) :
    (∀ t, st.token = some t →
      apiService.requestInterceptor st config
        = { authorization := some ("Bearer " ++ t) })
    ∧ (st.token = none → apiService.requestInterceptor st config = config) := by
  constructor
  · intro t ht
    simp [apiService.requestInterceptor, ht]
  · intro ht
    simp [apiService.requestInterceptor, ht]

/-- C7 witness — with token `"tok123"` stored, an outgoing request gets
`Authorization: Bearer tok123`. -/
theorem requestInterceptor_header_witness :
    apiService.requestInterceptor { token := some "tok123", user := none }
      { authorization := none }
      = { authorization := some "Bearer tok123" } :=
  (requestInterceptor_header _ _).1 "tok123" rfl

/-- C7 counterexample — the claim says a request is sent without an
`Authorization` header whenever no token is stored; after
`setAuthToken("tok123")` installed the default header and
`authUtils.logout()` cleared the store (but not the axios defaults), the
store holds no token yet the outgoing request still carries
`Authorization: Bearer tok123`. -/
theorem staleAuthHeader_after_logout :
    (authUtils.logout
        { token := some "tok123", user := some (StoredUser.wellFormed sampleUser) }).token
      = none
    ∧ (apiService.requestInterceptor
        (authUtils.logout
          { token := some "tok123", user := some (StoredUser.wellFormed sampleUser) })
        { authorization := apiService.setAuthToken (some "tok123") none }).authorization
      = some "Bearer tok123" :=
  ⟨rfl, rfl⟩

/-- C1 counterexample — the claim says that after a successful credentials
exchange followed by a failed profile fetch the store holds no residual
token; starting from a fresh unauthenticated client, with exchange
returning `"tok123"` and the profile fetch rejecting with status 500,
`login` re-raises the failure and leaves `currentUser` absent — but the
persisted token `"tok123"` is still in the store. -/
theorem login_profileFailure_keeps_token :
    (AuthProvider.login idleClient
        { exchange := Except.ok { access_token := "tok123", token_type := "bearer" }
          profile := Except.error { status := some 500, detail := none } }).1.store.token
      = some "tok123"
    ∧ (AuthProvider.login idleClient
        { exchange := Except.ok { access_token := "tok123", token_type := "bearer" }
          profile := Except.error { status := some 500, detail := none } }).1.session.user
      = none
    ∧ (AuthProvider.login idleClient
        { exchange := Except.ok { access_token := "tok123", token_type := "bearer" }
          profile := Except.error { status := some 500, detail := none } }).2
      = Except.error { status := some 500, detail := none } :=
  ⟨rfl, rfl, rfl⟩

/-- C1 amended — when the credentials exchange succeeds and the profile
fetch fails, `login` re-raises the failure, leaves `currentUser` unchanged
(absent when the call started unauthenticated) and ends with
`loading = false`; the transiently persisted token is removed from the
store only when the profile-fetch failure is a 401 (cleared by the
response interceptor, not by `login`) — for every other failure the token
remains in the store. -/
theorem login_profileFetchFailure (cs : ClientState) (o : AuthProvider.LoginOracle)
    (auth : AuthResponse) (e : ApiError)
    (hx : o.exchange = Except.ok auth) (hp : o.profile = Except.error e) :
    (AuthProvider.login cs o).2 = Except.error e
    ∧ (AuthProvider.login cs o).1.session.user = cs.session.user
    ∧ (AuthProvider.login cs o).1.session.loading = false
    ∧ (e.status = some 401 →
        (AuthProvider.login cs o).1.store = { token := none, user := none })
    ∧ (e.status ≠ some 401 →
        (AuthProvider.login cs o).1.store.token = some auth.access_token
        ∧ (AuthProvider.login cs o).1.store.user = cs.store.user) := by
  by_cases hc : e.status = some 401
  · refine ⟨?_, ?_, ?_, fun _ => ?_, fun hn => absurd hc hn⟩ <;>
      simp [AuthProvider.login, apiCall, apiService.responseInterceptor,
        authUtils.setToken, apiService.setAuthToken, hx, hp, hc]
  · have hb : (e.status == some 401) = false := by
      simp [hc]
    refine ⟨?_, ?_, ?_, fun h => absurd h hc, fun _ => ⟨?_, ?_⟩⟩ <;>
      simp [AuthProvider.login, apiCall, apiService.responseInterceptor,
        authUtils.setToken, apiService.setAuthToken, hx, hp, hb]

/-- C1 amended witness — concrete run with a 500 profile-fetch failure. -/
theorem login_profileFetchFailure_witness :
    (AuthProvider.login idleClient
        { exchange := Except.ok { access_token := "tok123", token_type := "bearer" }
          profile := Except.error { status := some 500, detail := none } }).2
      = Except.error { status := some 500, detail := none }
    ∧ (AuthProvider.login idleClient
        { exchange := Except.ok { access_token := "tok123", token_type := "bearer" }
          profile := Except.error { status := some 500, detail := none } }).1.store.token
      = some "tok123" :=
  ⟨(login_profileFetchFailure idleClient _ _ _ rfl rfl).1,
    ((login_profileFetchFailure idleClient
        { exchange := Except.ok { access_token := "tok123", token_type := "bearer" }
          profile := Except.error { status := some 500, detail := none } }
        { access_token := "tok123", token_type := "bearer" }
        { status := some 500, detail := none } rfl rfl).2.2.2.2 (by decide)).1⟩

/-- C5 — startup restoration: with both a token and a well-formed cached
user persisted, a successful validation call resolves the session to
authenticated with `currentUser` equal to the cached user (one network
call, store untouched); a failed validation call (any error) clears the
store and resolves to unauthenticated; with the token or the cached user
absent, the session resolves directly to unauthenticated with no
validation call (`apiCalls` unchanged); every branch ends with
`loading = false`. -/
theorem initAuth_startup_restore (cs : ClientState)
    (o : Except ApiError UserProfile)
    (hmu : cs.session.user = none) (hml : cs.session.loading = true)
    (hclean : ∀ s, cs.store.user ≠ some (StoredUser.corrupt s)) :
    (∀ t u p, cs.store.token = some t →
        cs.store.user = some (StoredUser.wellFormed u) → o = Except.ok p →
        AuthProvider.initAuth cs o = Except.ok { cs with
          session := { user := some u, loading := false }
          apiCalls := cs.apiCalls + 1 })
    ∧ (∀ t u e, cs.store.token = some t →
        cs.store.user = some (StoredUser.wellFormed u) → o = Except.error e →
        ∃ cs2, AuthProvider.initAuth cs o = Except.ok cs2
          ∧ cs2.store = { token := none, user := none }
          ∧ cs2.session = { user := none, loading := false }
          ∧ cs2.apiCalls = cs.apiCalls + 1)
    ∧ ((cs.store.token = none ∨ cs.store.user = none) →
        AuthProvider.initAuth cs o
          = Except.ok { cs with session := { user := none, loading := false } }) := by
  obtain ⟨⟨tok, usr⟩, da, ⟨su, sl⟩, n, r⟩ := cs
  replace hmu : su = none := hmu
  replace hml : sl = true := hml
  subst hmu hml
  refine ⟨fun t u p ht hu hop => ?_, fun t u e ht hu hoe => ?_, fun habs => ?_⟩
  · replace ht : tok = some t := ht
    replace hu : usr = some (StoredUser.wellFormed u) := hu
    subst ht hu hop
    simp [AuthProvider.initAuth, authUtils.getUser, authUtils.getToken,
      apiCall, apiService.responseInterceptor]
  · replace ht : tok = some t := ht
    replace hu : usr = some (StoredUser.wellFormed u) := hu
    subst ht hu hoe
    by_cases h401 : e.status = some 401
    · refine ⟨{ store := { token := none, user := none }
                defaultAuth := da
                session := { user := none, loading := false }
                apiCalls := n + 1
                redirectedToLogin := true }, ?_, rfl, rfl, rfl⟩
      simp [AuthProvider.initAuth, authUtils.getUser, authUtils.getToken,
        apiCall, apiService.responseInterceptor, authUtils.logout,
        authUtils.removeToken, authUtils.removeUser, h401]
    · have hb : (e.status == some 401) = false := by simp [h401]
      refine ⟨{ store := { token := none, user := none }
                defaultAuth := da
                session := { user := none, loading := false }
                apiCalls := n + 1
                redirectedToLogin := r }, ?_, rfl, rfl, rfl⟩
      simp [AuthProvider.initAuth, authUtils.getUser, authUtils.getToken,
        apiCall, apiService.responseInterceptor, authUtils.logout,
        authUtils.removeToken, authUtils.removeUser, hb]
  · rcases habs with ht | hu
    · replace ht : tok = none := ht
      subst ht
      rcases usr with - | su2
      · simp [AuthProvider.initAuth, authUtils.getUser, authUtils.getToken]
      · rcases su2 with u | s
        · simp [AuthProvider.initAuth, authUtils.getUser, authUtils.getToken]
        · exact absurd rfl (hclean s)
    · replace hu : usr = none := hu
      subst hu
      rcases tok with - | t
      · simp [AuthProvider.initAuth, authUtils.getUser, authUtils.getToken]
      · simp [AuthProvider.initAuth, authUtils.getUser, authUtils.getToken]

/-- C5 witness — a persisted token and cached user with a succeeding
validation call resolve to authenticated with the cached user. -/
theorem initAuth_startup_restore_witness :
    AuthProvider.initAuth
      { store := { token := some "tok"
                   user := some (StoredUser.wellFormed sampleUser) }
        defaultAuth := none
        session := { user := none, loading := true }
        apiCalls := 0
        redirectedToLogin := false }
      (Except.ok sampleProfile)
      = Except.ok
        { store := { token := some "tok"
                     user := some (StoredUser.wellFormed sampleUser) }
          defaultAuth := none
          session := { user := some sampleUser, loading := false }
          apiCalls := 1
          redirectedToLogin := false } :=
  (initAuth_startup_restore _ _ rfl rfl
      (fun _ h => StoredUser.noConfusion (Option.some.inj h))).1
    "tok" sampleUser sampleProfile rfl rfl rfl

/-- C9 — register frame property: a successful `register` leaves the
session exactly as it was (no auto-login), touches neither the store, the
default header, nor the redirect flag, issues exactly one network call,
and returns success to the caller. -/
theorem register_success_is_frame (cs : ClientState) (u : User)
    (hl : cs.session.loading = false) :
    (AuthProvider.register cs (Except.ok u)).1.session = cs.session
    ∧ (AuthProvider.register cs (Except.ok u)).1.store = cs.store
    ∧ (AuthProvider.register cs (Except.ok u)).1.defaultAuth = cs.defaultAuth
    ∧ (AuthProvider.register cs (Except.ok u)).1.redirectedToLogin
        = cs.redirectedToLogin
    ∧ (AuthProvider.register cs (Except.ok u)).1.apiCalls = cs.apiCalls + 1
    ∧ (AuthProvider.register cs (Except.ok u)).2 = Except.ok () := by
  obtain ⟨st, da, ⟨su, sl⟩, n, r⟩ := cs
  replace hl : sl = false := hl
  subst hl
  refine ⟨?_, ?_, ?_, ?_, ?_, ?_⟩ <;>
    simp [AuthProvider.register, apiCall, apiService.responseInterceptor,
      Except.map]

/-- C9 witness — a concrete successful registration from an idle client. -/
theorem register_success_is_frame_witness :
    (AuthProvider.register idleClient (Except.ok sampleUser)).1.session
      = idleClient.session
    ∧ (AuthProvider.register idleClient (Except.ok sampleUser)).1.store
      = idleClient.store :=
  ⟨(register_success_is_frame idleClient sampleUser rfl).1,
    (register_success_is_frame idleClient sampleUser rfl).2.1⟩

/-- C10 — after a successful login, the user exposed as `currentUser` and
persisted to the store is exactly the profile returned by the current-user
endpoint (`{ id, email, username, full_name, role, is_active }` cast
`as User`): its `created_at`, `phone` and `address` are absent, even
though the declared `User` type lists `created_at` as required. -/
theorem login_success_stores_profile (cs : ClientState)
    (o : AuthProvider.LoginOracle) (auth : AuthResponse) (p : UserProfile)
    (hx : o.exchange = Except.ok auth) (hp : o.profile = Except.ok p) :
    (AuthProvider.login cs o).1.session.user = some (userOfProfile p)
    ∧ (AuthProvider.login cs o).1.store.user
        = some (StoredUser.wellFormed (userOfProfile p))
    ∧ (userOfProfile p).created_at = none
    ∧ (userOfProfile p).phone = none
    ∧ (userOfProfile p).address = none := by
  refine ⟨?_, ?_, rfl, rfl, rfl⟩ <;>
    simp [AuthProvider.login, apiCall, apiService.responseInterceptor,
      authUtils.setToken, authUtils.setUser, apiService.setAuthToken, hx, hp]

/-- C10 witness — a concrete successful login stores exactly the profile
record; its `created_at` is absent. -/
theorem login_success_stores_profile_witness :
    (AuthProvider.login idleClient
        { exchange := Except.ok { access_token := "tok123", token_type := "bearer" }
          profile := Except.ok sampleProfile }).1.session.user
      = some (userOfProfile sampleProfile)
    ∧ (userOfProfile sampleProfile).created_at = none :=
  ⟨(login_success_stores_profile idleClient _ _ sampleProfile rfl rfl).1,
    (login_success_stores_profile idleClient
      { exchange := Except.ok { access_token := "tok123", token_type := "bearer" }
        profile := Except.ok sampleProfile }
      { access_token := "tok123", token_type := "bearer" }
      sampleProfile rfl rfl).2.2.1⟩

/-- C4 witness — a route requiring role `baker` visited by the sample
`customer` user: the guard's decision coincides with the spec algorithm,
which redirects to the default home, not to login or a forbidden page. -/
theorem protectedRoute_matches_guardSpec_witness :
    ProtectedRoute (some sampleUser) false
        (AuthProvider.isAuthenticated (some sampleUser)) (some "baker") "/baker"
      = guardSpec (some sampleUser) false (some "baker") "/baker"
    ∧ guardSpec (some sampleUser) false (some "baker") "/baker"
      = GuardDecision.redirect "/" :=
  ⟨protectedRoute_matches_guardSpec (some sampleUser) false (some "baker") "/baker",
    rfl⟩

/-- C6 witness — with the sample user present the provider reports
authenticated. -/
theorem isAuthenticated_iff_currentUser_present_witness :
    AuthProvider.isAuthenticated (some sampleUser) = true :=
  (isAuthenticated_iff_currentUser_present (some sampleUser)).mpr
    (fun h => Option.noConfusion h)

/-- C8 witness — the sample `customer` user satisfies exactly its own
role. -/
theorem hasRole_iff_exact_match_witness :
    AuthProvider.hasRole (some sampleUser) "customer" = true :=
  (hasRole_iff_exact_match (some sampleUser) "customer").mpr
    ⟨sampleUser, rfl, rfl⟩
